import Mathlib

/-!
Verification of the kiv file-browser client-side scripts and the
spec-described Path Resolver, as a shallow embedding in Lean 4.

Embedded sources:
* a spec-modelled Path Resolver (the Rust server source is not in the
  excerpt; only the spec describes it),
* the copy-to-clipboard click handler (src/unnamed/part_000),
* the context-menu script (src/static/context_menu.js),
* the image hover-preview script (src/static/image_hover.js).

DOM event handlers are embedded as pure functions on explicit state
records; timers (setTimeout / clearTimeout) are modelled as lists of
pending (id, delay, action) entries with an explicit id counter.
-/

namespace Kiv

/-! ## Path Resolver (spec §4.1) -/

/-- Modelled from the spec: the Rust server sources are missing from the
excerpt, so the Path Resolver is modelled from spec §4.1.  Error cases of
`resolve`: `Traversal` for a path escaping the root, `NotFound` for a
path that does not exist at resolution time. -/
inductive PathError where
  | Traversal
  | NotFound
  deriving DecidableEq, Repr

/-- Modelled from the spec: "Normalizes path separators" — backslash
separators are rewritten to forward slashes before segmentation. -/
def normalizeSeparators (s : String) : String :=
  String.mk (s.data.map (fun c => if c = '\\' then '/' else c))

/-- Splits a character list into the chunks between `/` separators
(the semantics of `String.splitOn "/"`, by structural recursion). -/
def splitSegmentsAux : List Char → List (List Char)
  | [] => [[]]
  | c :: rest =>
    let r := splitSegmentsAux rest
    if c = '/' then [] :: r
    else
      match r with
      | [] => [[c]]
      | seg :: segs => (c :: seg) :: segs

/-- The separator-normalized path split into segments at `/`. -/
def pathSegments (s : String) : List String :=
  (splitSegmentsAux (normalizeSeparators s).data).map String.mk

/-- Modelled from the spec: a requested path has an absolute-path prefix
when, after separator normalization, it starts with a slash. -/
def absolutePrefixed (s : String) : Bool :=
  match (normalizeSeparators s).data with
  | c :: _ => c = '/'
  | [] => false

/-- A requested path contains a `..` segment. -/
def hasDotDotSegment (s : String) : Bool :=
  (pathSegments s).any (fun seg => seg = "..")

/-- The requested path contains a null byte. -/
def hasNullByte (s : String) : Bool :=
  s.data.any (fun c => c.toNat = 0)

/-- Modelled from the spec: `resolve(root, requested)` of spec §4.1.  The
missing Rust implementation is modelled over an abstract filesystem `fs`
(the set of existing absolute paths, each a segment list).  It normalizes
separators, rejects any `..` segment, any absolute-path prefix and any
null byte with `Traversal`, joins the remaining segments onto `root`, and
fails with `NotFound` when the joined path does not exist. -/
def resolve (root : List String) (fs : List (List String)) (requested : String) :
    Except PathError (List String) :=
  if absolutePrefixed requested || hasDotDotSegment requested || hasNullByte requested then
    .error .Traversal
  else
    let cleaned := (pathSegments requested).filter (fun seg => seg ≠ "" && seg ≠ ".")
    let joined := root ++ cleaned
    if fs.any (fun p => p = joined) then .ok joined else .error .NotFound

/-! ## Copy-to-clipboard click handler (src/unnamed/part_000) -/

/-- The action a pending copy-button timeout performs when it fires:
the success path resets the text to "Copy" and re-enables the button,
the error path resets only the text. -/
inductive CopyTimerAction where
  | resetTextAndEnable
  | resetTextOnly
  deriving DecidableEq, Repr

/-- State touched by the copy-button click handler: the button's label
and disabled flag, the clipboard contents, and the pending timeouts
(delay in milliseconds paired with the action to run). -/
structure CopyState where
  buttonText : String
  buttonDisabled : Bool
  clipboard : Option String
  timeouts : List (Nat × CopyTimerAction)
  deriving DecidableEq, Repr

/-- The body-delegated click handler of src/unnamed/part_000.
`isCopyButton`: whether the click target matches `.copy-button`;
`targetSel`: the `data-copy-target` attribute (none when missing);
`queryValue`: `document.querySelector` restricted to the value of the
matched input (none when no element matches); `clipboardOk`: whether
`navigator.clipboard.writeText` resolves or rejects. -/
def copyClickHandler (isCopyButton : Bool) (targetSel : Option String)
    (queryValue : String → Option String) (clipboardOk : Bool)
    (s : CopyState) : CopyState :=
  if !isCopyButton then s
  else
    match targetSel with
    | none => s
    | some sel =>
      match queryValue sel with
      | none => s
      | some textToCopy =>
        if clipboardOk then
          { s with clipboard := some textToCopy
                   buttonText := "Copied!"
                   buttonDisabled := true
                   timeouts := s.timeouts ++ [(2000, .resetTextAndEnable)] }
        else
          { s with buttonText := "Error"
                   timeouts := s.timeouts ++ [(2000, .resetTextOnly)] }

/-- Firing a copy-button timeout. -/
def fireCopyTimeout (a : CopyTimerAction) (s : CopyState) : CopyState :=
  match a with
  | .resetTextAndEnable => { s with buttonText := "Copy", buttonDisabled := false }
  | .resetTextOnly => { s with buttonText := "Copy" }

/-! ## Context menu (src/static/context_menu.js) -/

/-- A DOM element as the context-menu and hover scripts observe it: its
tag name, whether it has an `id`, and the data attributes the scripts
read (`none` = attribute absent). -/
structure Elem where
  tag : String
  hasId : Bool
  dataPath : Option String
  dataIsDir : Option String
  dataImageUrl : Option String
  deriving DecidableEq, Repr

/-- Models `event.target.closest(sel)`: the chain of the target followed by its
ancestors, innermost first; `closest` returns the first element of the
chain satisfying the selector predicate. -/
def closest (chain : List Elem) (sel : Elem → Bool) : Option Elem :=
  chain.find? sel

/-- The selector `li[data-path][id]` used by the contextmenu listener in
src/static/context_menu.js. -/
def matchesPathIdItem (e : Elem) : Bool :=
  e.tag = "li" && e.dataPath.isSome && e.hasId

/-- The selector `li[data-path]` (used by the contextmenu listener of
src/unnamed/part_001, an earlier revision of the same script). -/
def matchesPathItem (e : Elem) : Bool :=
  e.tag = "li" && e.dataPath.isSome

/-- Content of the `#context-share-button-wrapper` span: empty, or the
freshly recreated share `<button>` whose `hx-vals` carries `path`. -/
inductive WrapperContent where
  | empty
  | shareButtonFor (path : String)
  deriving DecidableEq, Repr

/-- State touched by src/static/context_menu.js: the menu's
`style.display`, the `#context-share-target` list item's `style.display`
and existence, the `#context-share-button-wrapper` span's content and
existence, and the innerHTML of each `.share-link-placeholder` div. -/
structure MenuState where
  menuDisplay : String
  shareTargetDisplay : String
  shareTargetExists : Bool
  wrapperContent : WrapperContent
  wrapperExists : Bool
  placeholders : List String
  deriving DecidableEq, Repr

/-- The `hideContextMenu` helper of src/static/context_menu.js: sets the menu's
display to none when it is not already none. -/
def hideContextMenu (s : MenuState) : MenuState :=
  if s.menuDisplay ≠ "none" then { s with menuDisplay := "none" } else s

/-- The `contextmenu` listener on `#file-browser` in
src/static/context_menu.js.  `chain` is the event target with its
ancestors, innermost first.  When a `li[data-path][id]` is found it
checks the structural elements, clears every share-link placeholder,
recreates the share button and shows its list item for a file
(`data-is-dir` ≠ "true"), hides the item and clears the wrapper for a
directory, then shows the menu; otherwise it hides the menu. -/
def contextmenuHandler (s : MenuState) (chain : List Elem) : MenuState :=
  match closest chain matchesPathIdItem with
  | some targetLi =>
    if !s.shareTargetExists || !s.wrapperExists then
      hideContextMenu s
    else
      let path := targetLi.dataPath.getD ""
      let isDir : Bool := targetLi.dataIsDir = some "true"
      let s1 := { s with placeholders := s.placeholders.map (fun _ => "") }
      let s2 :=
        if !isDir then
          { s1 with wrapperContent := .shareButtonFor path, shareTargetDisplay := "" }
        else
          { s1 with shareTargetDisplay := "none", wrapperContent := .empty }
      { s2 with menuDisplay := "block" }
  | none => hideContextMenu s

/-- The document `click` listener of src/static/context_menu.js.
`insideMenu`: `contextMenu.contains(event.target)`; `insideShareBox`:
the target has a `.share-link-inline-box` ancestor. -/
def menuDocClickHandler (s : MenuState) (insideMenu insideShareBox : Bool) : MenuState :=
  if s.menuDisplay = "block" && !insideMenu && !insideShareBox then
    hideContextMenu s
  else s

/-- The capture-phase window `scroll` listener of
src/static/context_menu.js. -/
def menuScrollHandler (s : MenuState) : MenuState :=
  hideContextMenu s

/-- The document `keydown` listener of src/static/context_menu.js:
Escape hides the menu and clears the share-link placeholders. -/
def menuKeydownHandler (s : MenuState) (key : String) : MenuState :=
  if key = "Escape" then
    let s1 := hideContextMenu s
    { s1 with placeholders := s1.placeholders.map (fun _ => "") }
  else s

/-- Whether `c` matches the character class `[a-zA-Z0-9-]` of the regex
in `getTargetPlaceholderId`. -/
def isPlaceholderSafeChar (c : Char) : Bool :=
  (('a' ≤ c && c ≤ 'z') || ('A' ≤ c && c ≤ 'Z') || ('0' ≤ c && c ≤ '9') || c == '-')

/-- The `getTargetPlaceholderId` helper of src/static/context_menu.js: returns null
for a missing or empty (falsy) path, otherwise replaces every character
outside `[a-zA-Z0-9-]` by an underscore (a global single-character-class
regex replace) and prefixes "share-placeholder-". -/
def getTargetPlaceholderId (path : Option String) : Option String :=
  match path with
  | none => none
  | some p =>
    if p = "" then none
    else
      let itemIdBase :=
        String.mk (p.data.map (fun c => if isPlaceholderSafeChar c then c else '_'))
      some ("share-placeholder-" ++ itemIdBase)

/-! ## Image hover preview (src/static/image_hover.js) -/

/-- The mouse-event and window data `positionHoverPreview` reads:
`clientX`/`clientY` from the event, `window.innerWidth`/`innerHeight`,
and `window.scrollX`/`scrollY`. -/
structure MouseInfo where
  clientX : Int
  clientY : Int
  viewportWidth : Int
  viewportHeight : Int
  scrollX : Int
  scrollY : Int
  deriving DecidableEq, Repr

/-- State touched by src/static/image_hover.js: whether the preview
element has been created, whether it carries the `visible` class, its
image source/alt, caption text, positioned style coordinates, the
pending show timers as (id, delay-ms) pairs, the `previewTimeout`
variable (the id of the latest scheduled timer) and the next fresh
timer id. -/
structure HoverState where
  previewExists : Bool
  visible : Bool
  imgSrc : String
  imgAlt : String
  nameText : String
  styleLeft : Int
  styleTop : Int
  showTimers : List (Nat × Nat)
  previewTimeout : Option Nat
  nextTimerId : Nat
  deriving DecidableEq, Repr

/-- The `initHoverPreview` helper: creates the preview element when absent; a fresh
element has no `visible` class, empty image source/alt and empty
caption. -/
def initHoverPreview (s : HoverState) : HoverState :=
  if !s.previewExists then
    { s with previewExists := true, visible := false,
             imgSrc := "", imgAlt := "", nameText := "" }
  else s

/-- Models `clearTimeout(previewTimeout)`: removes the pending timer whose id
is the one stored in `previewTimeout`, if it is still pending. -/
def clearPreviewTimeout (s : HoverState) : HoverState :=
  match s.previewTimeout with
  | none => s
  | some id => { s with showTimers := s.showTimers.filter (fun t => t.1 ≠ id) }

/-- The viewport-relative left coordinate computed by
`positionHoverPreview` before the scroll offset is added: cursor plus
the 15px margin, flipped to the left of the cursor when it would
overflow the right viewport edge, then clamped to the margin. -/
def computeHoverLeft (clientX previewWidth viewportWidth : Int) : Int :=
  let left := clientX + 15
  let left := if left + previewWidth > viewportWidth then clientX - previewWidth - 15 else left
  max 15 left

/-- The viewport-relative top coordinate computed by
`positionHoverPreview` before the scroll offset is added. -/
def computeHoverTop (clientY previewHeight viewportHeight : Int) : Int :=
  let top := clientY + 15
  let top := if top + previewHeight > viewportHeight then clientY - previewHeight - 15 else top
  max 15 top

/-- The `positionHoverPreview` helper: returns unchanged when no preview element
exists, otherwise writes the computed coordinates plus the scroll
offsets to the preview style.  `previewWidth`/`previewHeight` come from
`getBoundingClientRect` on the preview. -/
def positionHoverPreview (m : MouseInfo) (previewWidth previewHeight : Int)
    (s : HoverState) : HoverState :=
  if !s.previewExists then s
  else
    { s with
        styleLeft := computeHoverLeft m.clientX previewWidth m.viewportWidth + m.scrollX
        styleTop := computeHoverTop m.clientY previewHeight m.viewportHeight + m.scrollY }

/-- The `showHoverPreview` helper: initializes the preview, sets image source, alt
and caption, positions it, cancels the pending show timer and schedules
a fresh one with a 300ms delay, storing its id in `previewTimeout`.  It
never adds the `visible` class itself. -/
def showHoverPreview (imageUrl imageName : String) (m : MouseInfo)
    (previewWidth previewHeight : Int) (s : HoverState) : HoverState :=
  let s1 := initHoverPreview s
  let s2 := { s1 with imgSrc := imageUrl, imgAlt := imageName, nameText := imageName }
  let s3 := positionHoverPreview m previewWidth previewHeight s2
  let s4 := clearPreviewTimeout s3
  { s4 with showTimers := s4.showTimers ++ [(s4.nextTimerId, 300)]
            previewTimeout := some s4.nextTimerId
            nextTimerId := s4.nextTimerId + 1 }

/-- Firing a pending show timer `id`: the callback adds the `visible`
class (the preview element is non-null whenever a show timer is
pending, since `showHoverPreview` creates it before scheduling). -/
def fireShowTimer (id : Nat) (s : HoverState) : HoverState :=
  match s.showTimers.find? (fun t => t.1 == id) with
  | some _ =>
    { s with showTimers := s.showTimers.filter (fun t => t.1 ≠ id), visible := true }
  | none => s

/-- The `hideHoverPreview` helper: clears the pending show timer and removes the
`visible` class when the preview element exists. -/
def hideHoverPreview (s : HoverState) : HoverState :=
  let s1 := clearPreviewTimeout s
  if s1.previewExists then { s1 with visible := false } else s1

/-- The selector `li[data-image-url]` of the hover listeners. -/
def matchesImageItem (e : Elem) : Bool :=
  e.tag = "li" && e.dataImageUrl.isSome

/-- The caption the mouseover listener derives:
`querySelector('span:not(.icon)')?.textContent || 'Image'` — the span
text when present and non-empty (truthy), else "Image". -/
def hoverImageName (spanText : Option String) : String :=
  match spanText with
  | some t => if t = "" then "Image" else t
  | none => "Image"

/-- The document `mouseover` listener: when the target chain holds a
`li[data-image-url]` and its `data-image-url` is truthy (non-empty),
calls `showHoverPreview`; otherwise does nothing. -/
def mouseoverHandler (chain : List Elem) (spanText : Option String)
    (m : MouseInfo) (previewWidth previewHeight : Int) (s : HoverState) : HoverState :=
  match closest chain matchesImageItem with
  | some imageItem =>
    let imageUrl := imageItem.dataImageUrl.getD ""
    if imageUrl ≠ "" then
      showHoverPreview imageUrl (hoverImageName spanText) m previewWidth previewHeight s
    else s
  | none => s

/-- The document `mouseout` listener: when the target chain holds a
`li[data-image-url]` and `event.relatedTarget` is not contained in that
item, calls `hideHoverPreview`. -/
def mouseoutHandler (chain : List Elem) (relatedInsideItem : Bool)
    (s : HoverState) : HoverState :=
  match closest chain matchesImageItem with
  | some _ => if !relatedInsideItem then hideHoverPreview s else s
  | none => s

/-- The document `mousemove` listener: when the target chain holds a
`li[data-image-url]`, calls `updateHoverPreviewPosition`, which
repositions only while the preview exists and has the `visible`
class. -/
def mousemoveHandler (chain : List Elem) (m : MouseInfo)
    (previewWidth previewHeight : Int) (s : HoverState) : HoverState :=
  match closest chain matchesImageItem with
  | some _ =>
    if s.previewExists && s.visible then
      positionHoverPreview m previewWidth previewHeight s
    else s
  | none => s

/-- The window `scroll` listener of image_hover.js. -/
def hoverScrollHandler (s : HoverState) : HoverState :=
  hideHoverPreview s

/-- The `htmx:beforeSwap` listener of image_hover.js. -/
def hoverBeforeSwapHandler (s : HoverState) : HoverState :=
  hideHoverPreview s

/-- Invariant maintained by the script: every pending show timer is the
one whose id `previewTimeout` stores (each scheduling first cancels the
previous timer and overwrites `previewTimeout`). -/
def hoverTimerInvariant (s : HoverState) : Prop :=
  ∀ t ∈ s.showTimers, some t.1 = s.previewTimeout

instance (s : HoverState) : Decidable (hoverTimerInvariant s) := by
  unfold hoverTimerInvariant; infer_instance

/-! ## Concrete sample states for evaluating the model -/

/-- A file-browser list item carrying `data-path` but no `id`. -/
def noIdItem : Elem := ⟨"li", false, some "a.txt", some "false", none⟩

/-- A file list item matching `li[data-path][id]`, not a directory. -/
def fileItem : Elem := ⟨"li", true, some "docs/a.txt", some "false", none⟩

/-- A context-menu state with the menu hidden and structure present. -/
def menuHidden : MenuState := ⟨"none", "", true, .empty, true, [""]⟩

/-- A list item carrying a `data-image-url`. -/
def imgItem : Elem := ⟨"li", true, none, none, some "thumb.png"⟩

/-- A sample mouse event near the top-left of an 800x600 viewport. -/
def sampleMouse : MouseInfo := ⟨100, 100, 800, 600, 0, 0⟩

/-- A hover state with a created but hidden preview and no timers. -/
def hiddenHover : HoverState := ⟨true, false, "", "", "", 0, 0, [], none, 0⟩

/-- A hover state with a created, visible preview and no timers. -/
def visibleHover : HoverState := ⟨true, true, "", "", "", 0, 0, [], none, 0⟩

/-- A hover state with a pending show timer (id 5) awaiting its delay. -/
def busyHover : HoverState := ⟨true, false, "p.png", "p", "p", 3, 4, [(5, 300)], some 5, 6⟩

/-- A mouse event near the bottom-right of an 800x600 viewport. -/
def flipMouse : MouseInfo := ⟨790, 590, 800, 600, 2, 5⟩

/-- A selector table with one input holding a share URL. -/
def copyQuery : String → Option String :=
  fun sel => if sel = "#share-url" then some "http://h/share/t" else none

/-- A copy button in its resting state. -/
def copyS0 : CopyState := ⟨"Copy", false, none, []⟩

/-! ## Theorems -/

/-- Clearing `previewTimeout` empties the pending show timers whenever
every pending timer is the one `previewTimeout` stores. -/
theorem clearPreviewTimeout_nil (s : HoverState) (hinv : hoverTimerInvariant s) :
    (clearPreviewTimeout s).showTimers = [] := by
  unfold hoverTimerInvariant at hinv
  unfold clearPreviewTimeout
  cases hpt : s.previewTimeout with
  | none =>
    cases hts : s.showTimers with
    | nil => rfl
    | cons a l =>
      have := hinv a (by rw [hts]; exact List.mem_cons_self a l)
      rw [hpt] at this
      exact absurd this (by simp)
  | some id =>
    simp only []
    rw [List.filter_eq_nil_iff]
    intro a ha
    have h2 := hinv a ha
    rw [hpt] at h2
    injection h2 with h2
    simp [h2]

/-- Lemma: `showHoverPreview` leaves the `visible` class alone (a fresh preview
starts without it), cancels the previous show timer and schedules
exactly one 300ms timer whose id it stores in `previewTimeout`. -/
theorem showHoverPreview_state (url name : String) (m : MouseInfo) (w h : Int)
    (s : HoverState) (hinv : hoverTimerInvariant s) :
    (showHoverPreview url name m w h s).visible = (s.previewExists && s.visible) ∧
    (showHoverPreview url name m w h s).showTimers = [(s.nextTimerId, 300)] ∧
    (showHoverPreview url name m w h s).previewTimeout = some s.nextTimerId := by
  have hcs := clearPreviewTimeout_nil s hinv
  cases hpe : s.previewExists <;> cases hpt : s.previewTimeout <;>
    simp [clearPreviewTimeout, hpt] at hcs <;>
    simp [showHoverPreview, initHoverPreview, positionHoverPreview, clearPreviewTimeout,
      hpe, hpt, hcs] <;> exact hcs

/-- Lemma: `hideHoverPreview` removes the `visible` class and leaves no pending
show timer, under the script invariants (a never-created preview never
has the class, and only the `previewTimeout` timer can be pending). -/
theorem hideHoverPreview_dismissed (s : HoverState) (hinv : hoverTimerInvariant s)
    (hvis : s.previewExists = false → s.visible = false) :
    (hideHoverPreview s).visible = false ∧ (hideHoverPreview s).showTimers = [] := by
  have hcs := clearPreviewTimeout_nil s hinv
  cases hpe : s.previewExists with
  | false =>
    have hv := hvis hpe
    cases hpt : s.previewTimeout <;> simp [clearPreviewTimeout, hpt] at hcs <;>
      simp [hideHoverPreview, clearPreviewTimeout, hpt, hpe, hcs, hv] <;> exact hcs
  | true =>
    cases hpt : s.previewTimeout <;> simp [clearPreviewTimeout, hpt] at hcs <;>
      simp [hideHoverPreview, clearPreviewTimeout, hpt, hpe, hcs] <;> exact hcs

/-- Firing any timer id on a state with no pending show timer changes
nothing. -/
theorem fireShowTimer_of_empty (s : HoverState) (hX : s.showTimers = []) (id : Nat) :
    fireShowTimer id s = s := by
  unfold fireShowTimer
  rw [hX]
  rfl

/-- C1: For every client-supplied requested path that contains a `..`
segment or an absolute-path prefix, the Path Resolver's
resolve(root, requested) returns the Traversal error and never returns a
resolved path. -/
theorem resolve_dotdot_or_absolute_traversal (root : List String)
    (fs : List (List String)) (requested : String)
    (h : hasDotDotSegment requested = true ∨ absolutePrefixed requested = true) :
    resolve root fs requested = .error .Traversal := by
  unfold resolve
  rcases h with h | h <;> simp [h]

/-- Witness for C1 at the concrete requested path "../etc/passwd". -/
theorem resolve_dotdot_or_absolute_traversal_witness :
    hasDotDotSegment "../etc/passwd" = true ∧
    resolve ["root"] [] "../etc/passwd" = .error .Traversal :=
  ⟨by decide,
   resolve_dotdot_or_absolute_traversal ["root"] [] "../etc/passwd" (Or.inl (by decide))⟩

/-- C3: For every click on a `.copy-button` whose `data-copy-target`
selector resolves to an existing input, the handler writes exactly that
input's value to the clipboard; on success the button text becomes
"Copied!" and on write failure it becomes "Error", and in both cases the
scheduled 2000ms timeout resets the text to "Copy". -/
theorem copyClickHandler_feedback (targetSel value : String)
    (queryValue : String → Option String) (ok : Bool) (s : CopyState)
    (hq : queryValue targetSel = some value) :
    (ok = true →
      (copyClickHandler true (some targetSel) queryValue ok s).clipboard = some value ∧
      (copyClickHandler true (some targetSel) queryValue ok s).buttonText = "Copied!" ∧
      (copyClickHandler true (some targetSel) queryValue ok s).timeouts =
        s.timeouts ++ [(2000, .resetTextAndEnable)] ∧
      (fireCopyTimeout .resetTextAndEnable
        (copyClickHandler true (some targetSel) queryValue ok s)).buttonText = "Copy") ∧
    (ok = false →
      (copyClickHandler true (some targetSel) queryValue ok s).clipboard = s.clipboard ∧
      (copyClickHandler true (some targetSel) queryValue ok s).buttonText = "Error" ∧
      (copyClickHandler true (some targetSel) queryValue ok s).timeouts =
        s.timeouts ++ [(2000, .resetTextOnly)] ∧
      (fireCopyTimeout .resetTextOnly
        (copyClickHandler true (some targetSel) queryValue ok s)).buttonText = "Copy") := by
  cases ok <;> simp [copyClickHandler, hq, fireCopyTimeout]

/-- Witness for C3 at a concrete selector, input value and state. -/
theorem copyClickHandler_feedback_witness :
    (copyClickHandler true (some "#share-url") copyQuery true copyS0).clipboard =
      some "http://h/share/t" ∧
    (copyClickHandler true (some "#share-url") copyQuery true copyS0).buttonText =
      "Copied!" ∧
    (copyClickHandler true (some "#share-url") copyQuery true copyS0).timeouts =
      copyS0.timeouts ++ [(2000, .resetTextAndEnable)] ∧
    (fireCopyTimeout .resetTextAndEnable
      (copyClickHandler true (some "#share-url") copyQuery true copyS0)).buttonText =
      "Copy" :=
  (copyClickHandler_feedback "#share-url" "http://h/share/t" copyQuery true copyS0
    (by simp [copyQuery])).1 rfl

/-- C10: For every click on a `.copy-button` whose `data-copy-target`
attribute is missing or whose selector matches no element, the handler
returns early leaving the whole state (clipboard, button text, disabled
flag, timers) unchanged. -/
theorem copyClickHandler_early_return (queryValue : String → Option String)
    (ok : Bool) (s : CopyState) :
    copyClickHandler true none queryValue ok s = s ∧
    (∀ sel, queryValue sel = none →
      copyClickHandler true (some sel) queryValue ok s = s) := by
  refine ⟨rfl, fun sel hq => ?_⟩
  simp [copyClickHandler, hq]

/-- Witness for C10 at a concrete state and selector table. -/
theorem copyClickHandler_early_return_witness :
    copyClickHandler true none (fun _ => none) true copyS0 = copyS0 ∧
    copyClickHandler true (some "#missing") (fun _ => none) true copyS0 = copyS0 :=
  ⟨(copyClickHandler_early_return (fun _ => none) true copyS0).1,
   (copyClickHandler_early_return (fun _ => none) true copyS0).2 "#missing" rfl⟩

/-- C6: Whenever the context menu is displayed, a click outside the menu
and outside an inline share box, a scroll event, or pressing the Escape
key sets the menu's display style to none. -/
theorem contextMenu_dismissal (s : MenuState) (h : s.menuDisplay = "block") :
    (menuDocClickHandler s false false).menuDisplay = "none" ∧
    (menuScrollHandler s).menuDisplay = "none" ∧
    (menuKeydownHandler s "Escape").menuDisplay = "none" := by
  simp [menuDocClickHandler, menuScrollHandler, menuKeydownHandler, hideContextMenu, h]

/-- Witness for C6 at a concrete displayed-menu state. -/
theorem contextMenu_dismissal_witness :
    (menuDocClickHandler ⟨"block", "", true, .empty, true, []⟩ false false).menuDisplay =
      "none" ∧
    (menuScrollHandler ⟨"block", "", true, .empty, true, []⟩).menuDisplay = "none" ∧
    (menuKeydownHandler ⟨"block", "", true, .empty, true, []⟩ "Escape").menuDisplay =
      "none" :=
  contextMenu_dismissal ⟨"block", "", true, .empty, true, []⟩ rfl

/-- C2 counterexample: a right-click whose target is a list item
carrying a `data-path` attribute (it matches `li[data-path]`) but no
`id` leaves the context menu undisplayed, because the listener matches
`li[data-path][id]` and falls through to `hideContextMenu`. -/
theorem contextmenu_dataPath_without_id_not_displayed :
    closest [noIdItem] matchesPathItem = some noIdItem ∧
    (contextmenuHandler menuHidden [noIdItem]).menuDisplay = "none" := by
  constructor <;> rfl

/-- C2 (amended): for every right-click on a list item carrying both a
`data-path` attribute and an `id` (the listener's `li[data-path][id]`
selector), when the share-target and button-wrapper elements exist, the
context menu is displayed and the Share list item is visible (display
not "none", with the share button recreated for the item's path) iff
`data-is-dir` is not "true"; for a directory the Share item's display
is set to "none" and the wrapper is cleared. -/
theorem contextmenuHandler_share_for_files_only (s : MenuState) (chain : List Elem)
    (li : Elem) (hfind : closest chain matchesPathIdItem = some li)
    (hst : s.shareTargetExists = true) (hw : s.wrapperExists = true) :
    (contextmenuHandler s chain).menuDisplay = "block" ∧
    ((contextmenuHandler s chain).shareTargetDisplay ≠ "none" ↔
      li.dataIsDir ≠ some "true") ∧
    (li.dataIsDir ≠ some "true" →
      (contextmenuHandler s chain).shareTargetDisplay = "" ∧
      (contextmenuHandler s chain).wrapperContent = .shareButtonFor (li.dataPath.getD "")) ∧
    (li.dataIsDir = some "true" →
      (contextmenuHandler s chain).shareTargetDisplay = "none" ∧
      (contextmenuHandler s chain).wrapperContent = .empty) := by
  unfold contextmenuHandler
  rw [hfind]
  by_cases hdir : li.dataIsDir = some "true" <;>
    simp [hst, hw, hdir]

/-- Witness for amended C2 at a concrete file item and menu state. -/
theorem contextmenuHandler_share_for_files_only_witness :
    (contextmenuHandler menuHidden [fileItem]).menuDisplay = "block" ∧
    (contextmenuHandler menuHidden [fileItem]).shareTargetDisplay = "" ∧
    (contextmenuHandler menuHidden [fileItem]).wrapperContent =
      .shareButtonFor "docs/a.txt" := by
  have hmain := contextmenuHandler_share_for_files_only menuHidden [fileItem] fileItem
    rfl rfl rfl
  have hfile := hmain.2.2.1 (by decide)
  exact ⟨hmain.1, hfile.1, hfile.2⟩

/-- C4: a mouseover on a list item with a non-empty `data-image-url`
never adds the `visible` class synchronously: it cancels the previously
pending show timer, schedules exactly one fresh timer with a 300ms
delay, and only that timer's firing makes the preview visible. -/
theorem mouseoverHandler_delayed_show (chain : List Elem) (item : Elem) (url : String)
    (spanText : Option String) (m : MouseInfo) (w h : Int) (s : HoverState)
    (hfind : closest chain matchesImageItem = some item)
    (hurl : item.dataImageUrl = some url) (hne : url ≠ "")
    (hinv : hoverTimerInvariant s) :
    ((mouseoverHandler chain spanText m w h s).visible = true → s.visible = true) ∧
    (mouseoverHandler chain spanText m w h s).showTimers = [(s.nextTimerId, 300)] ∧
    (mouseoverHandler chain spanText m w h s).previewTimeout = some s.nextTimerId ∧
    (fireShowTimer s.nextTimerId
        (mouseoverHandler chain spanText m w h s)).visible = true := by
  have hm : mouseoverHandler chain spanText m w h s =
      showHoverPreview url (hoverImageName spanText) m w h s := by
    unfold mouseoverHandler
    rw [hfind]
    simp [hurl, hne]
  obtain ⟨h1, h2, h3⟩ := showHoverPreview_state url (hoverImageName spanText) m w h s hinv
  rw [hm] at *
  refine ⟨?_, h2, h3, ?_⟩
  · intro hv
    rw [h1] at hv
    exact (Bool.and_eq_true _ _ |>.mp hv).2
  · unfold fireShowTimer
    rw [h2]
    simp

/-- Witness for C4 at a concrete image item and a state with a pending
show timer. -/
theorem mouseoverHandler_delayed_show_witness :
    (mouseoverHandler [imgItem] (some "pic") sampleMouse 50 40 busyHover).showTimers =
      [(6, 300)] ∧
    (mouseoverHandler [imgItem] (some "pic") sampleMouse 50 40 busyHover).previewTimeout =
      some 6 ∧
    (fireShowTimer 6
        (mouseoverHandler [imgItem] (some "pic") sampleMouse 50 40 busyHover)).visible =
      true := by
  have h := mouseoverHandler_delayed_show [imgItem] imgItem "thumb.png" (some "pic")
    sampleMouse 50 40 busyHover rfl rfl (by decide) (by decide)
  exact ⟨h.2.1, h.2.2.1, h.2.2.2⟩

/-- C5: a mouseout that really leaves an image item, a scroll event, or
an htmx:beforeSwap event removes the `visible` class and clears the
pending show timer, after which firing any timer id changes nothing, so
the preview cannot become visible without a new pointer-enter. -/
theorem hover_dismissal_clears (chain : List Elem) (item : Elem) (s : HoverState)
    (hfind : closest chain matchesImageItem = some item)
    (hinv : hoverTimerInvariant s)
    (hvis : s.previewExists = false → s.visible = false) :
    ((mouseoutHandler chain false s).visible = false ∧
      (mouseoutHandler chain false s).showTimers = [] ∧
      ∀ id, fireShowTimer id (mouseoutHandler chain false s) =
        mouseoutHandler chain false s) ∧
    ((hoverScrollHandler s).visible = false ∧
      (hoverScrollHandler s).showTimers = [] ∧
      ∀ id, fireShowTimer id (hoverScrollHandler s) = hoverScrollHandler s) ∧
    ((hoverBeforeSwapHandler s).visible = false ∧
      (hoverBeforeSwapHandler s).showTimers = [] ∧
      ∀ id, fireShowTimer id (hoverBeforeSwapHandler s) = hoverBeforeSwapHandler s) := by
  have hmo : mouseoutHandler chain false s = hideHoverPreview s := by
    unfold mouseoutHandler
    rw [hfind]
    simp
  obtain ⟨h1, h2⟩ := hideHoverPreview_dismissed s hinv hvis
  have h3 := fun id => fireShowTimer_of_empty _ h2 id
  rw [hmo]
  exact ⟨⟨h1, h2, h3⟩, ⟨h1, h2, h3⟩, ⟨h1, h2, h3⟩⟩

/-- Witness for C5 at a concrete image item and a state with a pending
show timer. -/
theorem hover_dismissal_clears_witness :
    (mouseoutHandler [imgItem] false busyHover).visible = false ∧
    (mouseoutHandler [imgItem] false busyHover).showTimers = [] ∧
    fireShowTimer 5 (mouseoutHandler [imgItem] false busyHover) =
      mouseoutHandler [imgItem] false busyHover ∧
    (hoverScrollHandler busyHover).visible = false ∧
    (hoverBeforeSwapHandler busyHover).visible = false := by
  have h := hover_dismissal_clears [imgItem] imgItem busyHover rfl (by decide) (by decide)
  exact ⟨h.1.1, h.1.2.1, h.1.2.2 5, h.2.1.1, h.2.2.1⟩

/-- C7 counterexample: a mousemove over a list item carrying a
`data-image-url`, while the preview is not visible, does not recompute
the preview position (it stays 0 although the recomputed coordinate
would be 115). -/
theorem mousemove_hidden_no_reposition :
    closest [imgItem] matchesImageItem = some imgItem ∧
    (mousemoveHandler [imgItem] sampleMouse 50 40 hiddenHover).styleLeft = 0 ∧
    computeHoverLeft sampleMouse.clientX 50 sampleMouse.viewportWidth +
      sampleMouse.scrollX = 115 := by
  refine ⟨rfl, rfl, by decide⟩

/-- C7 (amended): for every mousemove over a list item carrying a
`data-image-url`, while the preview element exists and carries the
`visible` class, the preview position is recomputed from the current
mouse coordinates; otherwise the handler leaves the position
unchanged. -/
theorem mousemove_reposition_when_visible (chain : List Elem) (item : Elem)
    (m : MouseInfo) (w h : Int) (s : HoverState)
    (hfind : closest chain matchesImageItem = some item)
    (hpe : s.previewExists = true) (hv : s.visible = true) :
    (mousemoveHandler chain m w h s).styleLeft =
      computeHoverLeft m.clientX w m.viewportWidth + m.scrollX ∧
    (mousemoveHandler chain m w h s).styleTop =
      computeHoverTop m.clientY h m.viewportHeight + m.scrollY := by
  unfold mousemoveHandler
  rw [hfind]
  simp [hpe, hv, positionHoverPreview]

/-- Witness for amended C7 at a concrete visible state. -/
theorem mousemove_reposition_when_visible_witness :
    (mousemoveHandler [imgItem] sampleMouse 50 40 visibleHover).styleLeft =
      computeHoverLeft sampleMouse.clientX 50 sampleMouse.viewportWidth +
        sampleMouse.scrollX ∧
    (mousemoveHandler [imgItem] sampleMouse 50 40 visibleHover).styleTop =
      computeHoverTop sampleMouse.clientY 40 sampleMouse.viewportHeight +
        sampleMouse.scrollY :=
  mousemove_reposition_when_visible [imgItem] imgItem sampleMouse 50 40 visibleHover
    rfl rfl rfl

/-- C9: the viewport-relative coordinates that `positionHoverPreview`
writes (minus the scroll offsets) are each at least the 15px margin, and
when the cursor-side placement would overflow the right or bottom
viewport edge the coordinate is flipped to the other side of the cursor
(then clamped to the margin). -/
theorem positionHoverPreview_margins (m : MouseInfo) (w h : Int) (s : HoverState)
    (hpe : s.previewExists = true) :
    (positionHoverPreview m w h s).styleLeft =
      computeHoverLeft m.clientX w m.viewportWidth + m.scrollX ∧
    (positionHoverPreview m w h s).styleTop =
      computeHoverTop m.clientY h m.viewportHeight + m.scrollY ∧
    15 ≤ computeHoverLeft m.clientX w m.viewportWidth ∧
    15 ≤ computeHoverTop m.clientY h m.viewportHeight ∧
    (m.clientX + 15 + w > m.viewportWidth →
      computeHoverLeft m.clientX w m.viewportWidth = max 15 (m.clientX - w - 15)) ∧
    (m.clientY + 15 + h > m.viewportHeight →
      computeHoverTop m.clientY h m.viewportHeight = max 15 (m.clientY - h - 15)) := by
  refine ⟨by simp [positionHoverPreview, hpe], by simp [positionHoverPreview, hpe],
    le_max_left 15 _, le_max_left 15 _, fun hov => ?_, fun hov => ?_⟩
  · simp [computeHoverLeft, hov]
  · simp [computeHoverTop, hov]

/-- Witness for C9 at a cursor position overflowing both edges. -/
theorem positionHoverPreview_margins_witness :
    (positionHoverPreview flipMouse 50 40 visibleHover).styleLeft =
      computeHoverLeft flipMouse.clientX 50 flipMouse.viewportWidth +
        flipMouse.scrollX ∧
    15 ≤ computeHoverLeft flipMouse.clientX 50 flipMouse.viewportWidth ∧
    computeHoverLeft flipMouse.clientX 50 flipMouse.viewportWidth =
      max 15 (flipMouse.clientX - 50 - 15) ∧
    computeHoverTop flipMouse.clientY 40 flipMouse.viewportHeight =
      max 15 (flipMouse.clientY - 40 - 15) := by
  have h := positionHoverPreview_margins flipMouse 50 40 visibleHover rfl
  exact ⟨h.1, h.2.2.1, h.2.2.2.2.1 (by decide), h.2.2.2.2.2 (by decide)⟩

/-- C8: `getTargetPlaceholderId` returns null for a missing or empty
path; for a non-empty path it returns "share-placeholder-" followed by
a suffix of the same length as the path in which every character is the
original (when in `[a-zA-Z0-9-]`) or an underscore. -/
theorem getTargetPlaceholderId_spec (path : String) :
    getTargetPlaceholderId none = none ∧
    getTargetPlaceholderId (some "") = none ∧
    (path ≠ "" →
      getTargetPlaceholderId (some path) =
        some ("share-placeholder-" ++
          String.mk (path.data.map
            (fun c => if isPlaceholderSafeChar c then c else '_'))) ∧
      (String.mk (path.data.map
          (fun c => if isPlaceholderSafeChar c then c else '_'))).length = path.length ∧
      (∀ i (hi : i < path.data.length)
          (hj : i < (String.mk (path.data.map
            (fun c => if isPlaceholderSafeChar c then c else '_'))).data.length),
        (String.mk (path.data.map
            (fun c => if isPlaceholderSafeChar c then c else '_'))).data.get ⟨i, hj⟩ =
          if isPlaceholderSafeChar (path.data.get ⟨i, hi⟩) then path.data.get ⟨i, hi⟩
          else '_') ∧
      ∀ c ∈ (String.mk (path.data.map
          (fun c => if isPlaceholderSafeChar c then c else '_'))).data,
        isPlaceholderSafeChar c = true ∨ c = '_') := by
  refine ⟨rfl, rfl, fun hne => ⟨?_, ?_, ?_, ?_⟩⟩
  · simp [getTargetPlaceholderId, hne]
  · exact List.length_map path.data _
  · intro i hi hj
    simp [List.get_map]
  · intro c hc
    simp only [List.mem_map] at hc
    obtain ⟨a, _, ha⟩ := hc
    by_cases hsafe : isPlaceholderSafeChar a = true
    · left
      rw [← ha]
      simpa [hsafe]
    · right
      rw [← ha]
      simp [hsafe]

/-- Witness for C8 at the concrete path "a/b". -/
theorem getTargetPlaceholderId_spec_witness :
    getTargetPlaceholderId (some "a/b") = some ("share-placeholder-" ++ "a_b") := by
  have h := ((getTargetPlaceholderId_spec "a/b").2.2 (by decide)).1
  rw [h]
  rfl

end Kiv
